import Mathlib

set_option autoImplicit false

/-!
Verification of the anthology database service (index.js): a CRUD service over
three related tables (Autor, Antologia, Like) backed by a relational store,
with bulk export/import/reset lifecycle operations.  The store is modelled as
three lists of rows; auto-increment primary keys follow the SQLite rowid rule
(one more than the current maximum).  Each request handler is translated into
a function from the store (plus the parsed request data) to an ApiResult and
a possibly updated store.
-/

namespace DbAntologias

/-- A row of the Autor table: integer primary key, a display name declared
NOT NULL, and two optional text columns. -/
structure Autor where
  idautor : Nat
  nombre : Option String
  biografia : Option String
  urlfoto : Option String
deriving Repr, DecidableEq

/-- A row of the Antologia table: integer primary key, NOT NULL title,
optional foreign key to Autor, and four optional text columns. -/
structure Antologia where
  id : Nat
  titulo : Option String
  idautor : Option Nat
  contenido : Option String
  referencia : Option String
  tituloObra : Option String
  autorObra : Option String
deriving Repr, DecidableEq

/-- A row of the Like table: integer primary key, optional foreign key to
Antologia, and two optional user columns. -/
structure Like where
  id : Nat
  idantologia : Option Nat
  userId : Option String
  userEmail : Option String
deriving Repr, DecidableEq

/-- The whole relational store: the three tables. -/
structure Store where
  autores : List Autor
  antologias : List Antologia
  likes : List Like
deriving Repr, DecidableEq

def emptyStore : Store := ⟨[], [], []⟩

/-- SQLite rowid assignment for an auto-increment primary key: one more than
the largest id currently in the table. -/
def nextId (ids : List Nat) : Nat := ids.foldr max 0 + 1

/-- The observable outcome of a request handler: a success with a JSON body
and status, an informational message body with a status (the message key of
the JSON body), or a 500 response whose body carries the error key. -/
inductive ApiResult (α : Type) where
  | success (status : Nat) (body : α)
  | message (status : Nat) (msg : String)
  | error (msg : String)
deriving Repr, DecidableEq

/-- Request body for POST autores. -/
structure AutorBody where
  nombre : Option String
  biografia : Option String
  urlfoto : Option String
deriving Repr, DecidableEq

/-- Autor.create: the nombre column is declared allowNull false, so a null or
missing name is rejected with a validation error; any present string value
(the empty string included) is accepted and the row gets a fresh id. -/
def createAutor (s : Store) (b : AutorBody) : Except String (Autor × Store) :=
  match b.nombre with
  | none => .error "notNull Violation: Autor.nombre cannot be null"
  | some n =>
    let a : Autor := ⟨nextId (s.autores.map Autor.idautor), some n, b.biografia, b.urlfoto⟩
    .ok (a, { s with autores := s.autores ++ [a] })

/-- POST autores handler: 201 with the created row, or a 500 error. -/
def postAutores (s : Store) (b : AutorBody) : ApiResult Autor × Store :=
  match createAutor s b with
  | .ok (a, s2) => (.success 201 a, s2)
  | .error e => (.error e, s)

/-- GET autores handler: always 200 with every Autor row. -/
def getAutores (s : Store) : ApiResult (List Autor) := .success 200 s.autores

/-- Request body for POST antologia. -/
structure AntologiaBody where
  titulo : Option String
  idautor : Option Nat
  contenido : Option String
  referencia : Option String
  tituloObra : Option String
  autorObra : Option String
deriving Repr, DecidableEq

/-- Antologia.create: titulo is declared allowNull false; the author id is
accepted as given, without an existence check. -/
def createAntologia (s : Store) (b : AntologiaBody) : Except String (Antologia × Store) :=
  match b.titulo with
  | none => .error "notNull Violation: Antologia.titulo cannot be null"
  | some t =>
    let a : Antologia := ⟨nextId (s.antologias.map Antologia.id), some t, b.idautor,
      b.contenido, b.referencia, b.tituloObra, b.autorObra⟩
    .ok (a, { s with antologias := s.antologias ++ [a] })

/-- Request body for POST like. -/
structure LikeBody where
  idantologia : Option Nat
  userId : Option String
  userEmail : Option String
deriving Repr, DecidableEq

/-- Like.create: no required column, no dedup, no existence check. -/
def createLike (s : Store) (b : LikeBody) : Like × Store :=
  let l : Like := ⟨nextId (s.likes.map Like.id), b.idantologia, b.userId, b.userEmail⟩
  (l, { s with likes := s.likes ++ [l] })

/-- The public Autor attributes included in the antologia listing join. -/
structure AutorPublic where
  nombre : Option String
  biografia : Option String
  urlfoto : Option String
deriving Repr, DecidableEq

/-- One element of the GET antologia listing: the raw row, the joined
public fields of the owning Autor when it exists, and the derived like
count. -/
structure AntologiaView where
  row : Antologia
  autor : Option AutorPublic
  likesCount : Nat
deriving Repr, DecidableEq

/-- The correlated subquery: SELECT COUNT of Likes whose idantologia equals
the given Antologia id.  A Like with a null idantologia matches no entry. -/
def likesCountOf (s : Store) (i : Nat) : Nat :=
  s.likes.countP (fun l => l.idantologia == some i)

/-- The LEFT OUTER JOIN plus count subquery applied to one Antologia row. -/
def enrichAntologia (s : Store) (a : Antologia) : AntologiaView :=
  { row := a
    autor := (s.autores.find? (fun au => a.idautor == some au.idautor)).map
      (fun au => ⟨au.nombre, au.biografia, au.urlfoto⟩)
    likesCount := likesCountOf s a.id }

/-- GET antologia handler: list every entry with author fields and like
count; when the result is empty respond 404 with a message body, otherwise
200 with the list. -/
def getAntologias (s : Store) : ApiResult (List AntologiaView) :=
  let vs := s.antologias.map (enrichAntologia s)
  if vs.length == 0 then .message 404 "No anthologies found"
  else .success 200 vs

/-- GET like idantologia handler: always 200 with each Like row whose
idantologia equals the parameter, an empty list when none match. -/
def getLikesFor (s : Store) (i : Nat) : ApiResult (List Like) :=
  .success 200 (s.likes.filter (fun l => l.idantologia == some i))

/-- Partial update body for PUT antologia: a present field replaces the
column value. -/
structure AntologiaPatch where
  titulo : Option String
  idautor : Option Nat
  contenido : Option String
  referencia : Option String
  tituloObra : Option String
  autorObra : Option String
deriving Repr, DecidableEq

def applyAntologiaPatch (p : AntologiaPatch) (a : Antologia) : Antologia :=
  { a with
    titulo := match p.titulo with | some v => some v | none => a.titulo
    idautor := match p.idautor with | some v => some v | none => a.idautor
    contenido := match p.contenido with | some v => some v | none => a.contenido
    referencia := match p.referencia with | some v => some v | none => a.referencia
    tituloObra := match p.tituloObra with | some v => some v | none => a.tituloObra
    autorObra := match p.autorObra with | some v => some v | none => a.autorObra }

/-- PUT antologia id handler: run the UPDATE, and when the affected row
count is positive refetch the row by primary key and return it; otherwise
the thrown not-found error is caught and reported as a 500 error body. -/
def updateAntologia (s : Store) (i : Nat) (p : AntologiaPatch) :
    ApiResult (Option Antologia) × Store :=
  let updated := s.antologias.countP (fun a => a.id == i)
  let s2 : Store :=
    { s with antologias :=
        s.antologias.map (fun a => if a.id == i then applyAntologiaPatch p a else a) }
  if updated > 0 then
    (.success 200 (s2.antologias.find? (fun a => a.id == i)), s2)
  else
    (.error "Anthology not found", s2)

/-- DELETE antologia id handler: run the DELETE, and when the deleted row
count is positive respond 200 with a message; otherwise the thrown
not-found error is caught and reported as a 500 error body.  Only Antologia
rows are touched: no cascade on Likes is performed by the handler. -/
def deleteAntologia (s : Store) (i : Nat) : ApiResult Unit × Store :=
  let deleted := s.antologias.countP (fun a => a.id == i)
  let s2 : Store := { s with antologias := s.antologias.filter (fun a => !(a.id == i)) }
  if deleted > 0 then
    (.message 200 "Anthology deleted successfully", s2)
  else
    (.error "Anthology not found", s2)

/-- Partial update body for PUT autores. -/
structure AutorPatch where
  nombre : Option String
  biografia : Option String
  urlfoto : Option String
deriving Repr, DecidableEq

def applyAutorPatch (p : AutorPatch) (a : Autor) : Autor :=
  { a with
    nombre := match p.nombre with | some v => some v | none => a.nombre
    biografia := match p.biografia with | some v => some v | none => a.biografia
    urlfoto := match p.urlfoto with | some v => some v | none => a.urlfoto }

/-- PUT autores id handler, same shape as the Antologia update. -/
def updateAutor (s : Store) (i : Nat) (p : AutorPatch) :
    ApiResult (Option Autor) × Store :=
  let updated := s.autores.countP (fun a => a.idautor == i)
  let s2 : Store :=
    { s with autores :=
        s.autores.map (fun a => if a.idautor == i then applyAutorPatch p a else a) }
  if updated > 0 then
    (.success 200 (s2.autores.find? (fun a => a.idautor == i)), s2)
  else
    (.error "Author not found", s2)

/-- The fixed seed Autor body inserted when the Autor table is empty. -/
def seedAutorBody : AutorBody :=
  ⟨some "Ada Aurora Sánchez Peña",
   some "Investigadora y académica de la Universidad de Colima",
   some "https://example.com/default-author-image.png"⟩

/-- The fixed seed Antologia body, referencing a given author id. -/
def seedAntologiaBody (aid : Nat) : AntologiaBody :=
  ⟨some "Primera Antología", some aid,
   some "Contenido de ejemplo de la primera antología",
   some "Referencia de ejemplo",
   some "Obra de ejemplo",
   some "Autor de la obra de ejemplo"⟩

/-- The seeding steps common to both initializeDatabase variants: when the
Autor count is zero insert the seed Autor; then when the Antologia count is
zero, look up the first Autor and, when one exists, insert the seed
Antologia referencing it. -/
def seedStep (s : Store) : Store :=
  let s1 :=
    if s.autores.length == 0 then
      match createAutor s seedAutorBody with
      | .ok (_, s2) => s2
      | .error _ => s
    else s
  if s1.antologias.length == 0 then
    match s1.autores.head? with
    | some a =>
      match createAntologia s1 (seedAntologiaBody a.idautor) with
      | .ok (_, s2) => s2
      | .error _ => s1
    | none => s1
  else s1

/-- The initializeDatabase variant that calls sequelize.sync with force
true: every table is dropped and recreated (so all prior rows are lost and
id sequences restart), then the seeding steps run on the now empty store. -/
def initializeDatabaseForce (_s : Store) : Store := seedStep emptyStore

/-- The initializeDatabase variant that calls sequelize.sync with alter
true: the schema is reconciled in place, existing rows are kept, then the
seeding steps run on the unchanged store. -/
def initializeDatabaseAlter (s : Store) : Store := seedStep s

/-- POST database reset handler: destroy every Like, then every Antologia,
then every Autor, then reinitialize with the force variant. -/
def resetDatabase (s : Store) : Store :=
  let s1 : Store := { s with likes := [] }
  let s2 : Store := { s1 with antologias := [] }
  let s3 : Store := { s2 with autores := [] }
  initializeDatabaseForce s3

/-- One top-level field of an import request body: absent (the key is
missing, so the handler skips that entity), present but not a usable array
of rows (bulkCreate throws on it), or an array of rows. -/
inductive BatchPayload (α : Type) where
  | absent
  | malformed
  | rows (xs : List α)
deriving Repr, DecidableEq

/-- The snapshot wire format: the three top-level keys autores, antologias
and likes of the export/import JSON body. -/
structure Snapshot where
  autores : BatchPayload Autor
  antologias : BatchPayload Antologia
  likes : BatchPayload Like
deriving Repr, DecidableEq

/-- GET database export: serialize all rows of the three tables. -/
def exportDatabase (s : Store) : Snapshot :=
  ⟨.rows s.autores, .rows s.antologias, .rows s.likes⟩

/-- Whether some row of the table already carries the given primary key. -/
def hasKey {α : Type} (key : α → Nat) (l : List α) (k : Nat) : Bool :=
  l.any (fun b => key b == k)

/-- bulkCreate with ignoreDuplicates (INSERT OR IGNORE): rows are inserted
in order, and a row whose primary key is already present is skipped. -/
def bulkCreateIgnore {α : Type} (key : α → Nat) (cur new : List α) : List α :=
  new.foldl (fun acc a => if hasKey key acc (key a) then acc else acc ++ [a]) cur

/-- One guarded bulkCreate of the import handler: an absent key is skipped,
a malformed value makes bulkCreate throw, an array is inserted with
duplicate keys ignored. -/
def applyBatch {α : Type} (key : α → Nat) (pay : BatchPayload α) (cur : List α) :
    Except String (List α) :=
  match pay with
  | .absent => .ok cur
  | .malformed => .error "bulkCreate failed"
  | .rows xs => .ok (bulkCreateIgnore key cur xs)

/-- POST database import handler: the three batches run in order inside a
single try catch, so the first batch that throws aborts the import — the
store keeps the effects of the batches already applied, the remaining
batches are not attempted, and the handler responds with a 500 error body;
when all batches succeed the handler responds 200. -/
def importSnapshot (snap : Snapshot) (s : Store) : Store × Option String :=
  match applyBatch Autor.idautor snap.autores s.autores with
  | .error e => (s, some e)
  | .ok au =>
    let s1 : Store := { s with autores := au }
    match applyBatch Antologia.id snap.antologias s1.antologias with
    | .error e => (s1, some e)
    | .ok an =>
      let s2 : Store := { s1 with antologias := an }
      match applyBatch Like.id snap.likes s2.likes with
      | .error e => (s2, some e)
      | .ok lk => ({ s2 with likes := lk }, none)

/-- Spec comparison definition, following the spec wording that batches are
independent and a failure for one entity type must not prevent attempting
the batches of the other entity types: every batch is attempted against the
store, a failing batch simply leaving its table unchanged. -/
def importSnapshotSpec (snap : Snapshot) (s : Store) : Store :=
  let au := match applyBatch Autor.idautor snap.autores s.autores with
    | .ok l => l
    | .error _ => s.autores
  let an := match applyBatch Antologia.id snap.antologias s.antologias with
    | .ok l => l
    | .error _ => s.antologias
  let lk := match applyBatch Like.id snap.likes s.likes with
    | .ok l => l
    | .error _ => s.likes
  ⟨au, an, lk⟩

/-- The store produced by a reset: exactly the seed Autor. -/
def seedAutor : Autor :=
  ⟨1, some "Ada Aurora Sánchez Peña",
   some "Investigadora y académica de la Universidad de Colima",
   some "https://example.com/default-author-image.png"⟩

/-- The store produced by a reset: exactly the seed Antologia. -/
def seedAntologia : Antologia :=
  ⟨1, some "Primera Antología", some 1,
   some "Contenido de ejemplo de la primera antología",
   some "Referencia de ejemplo",
   some "Obra de ejemplo",
   some "Autor de la obra de ejemplo"⟩

/-! Concrete fixtures used to evaluate the handlers on explicit inputs. -/

def w1Ant : Antologia := ⟨1, some "Entry one", none, none, none, none, none⟩

def w1Store : Store :=
  ⟨[], [w1Ant], [⟨1, some 1, some "u1", none⟩, ⟨2, some 1, some "u2", none⟩]⟩

def w2Store : Store := ⟨[], [⟨5, some "Solo entry", none, none, none, none, none⟩], []⟩

def w3Store : Store :=
  ⟨[⟨1, some "A", none, none⟩, ⟨2, some "B", none, none⟩],
   [⟨1, some "T", some 1, none, none, none, none⟩],
   [⟨1, some 1, some "u", none⟩, ⟨2, some 1, none, some "e"⟩]⟩

def c5Ant : Antologia := ⟨1, some "Imported entry", none, none, none, none, none⟩

/-- An import request whose autores value makes bulkCreate throw while its
antologias value is a valid one-row batch. -/
def c5Snap : Snapshot := ⟨.malformed, .rows [c5Ant], .absent⟩

def c7Store : Store :=
  ⟨[⟨7, some "Custom author", none, none⟩],
   [⟨3, some "Custom entry", some 7, none, none, none, none⟩], []⟩

def w7Store : Store :=
  ⟨[⟨4, some "Kept author", none, none⟩],
   [⟨9, some "Kept entry", some 4, none, none, none, none⟩], []⟩

def w8Store : Store :=
  ⟨[⟨1, some "A", none, none⟩],
   [⟨1, some "T", some 1, none, none, none, none⟩], []⟩

def w10Store : Store :=
  ⟨[⟨1, some "A", none, none⟩],
   [⟨1, some "T", some 1, none, none, none, none⟩,
    ⟨2, some "U", some 1, none, none, none, none⟩],
   [⟨1, some 1, some "u1", none⟩]⟩

def emptyAntologiaPatch : AntologiaPatch := ⟨none, none, none, none, none, none⟩

def emptyAutorPatch : AutorPatch := ⟨none, none, none⟩

/-! Helper lemmas about the insert-or-ignore fold and id assignment. -/

theorem bulkCreateIgnore_nil {α : Type} (key : α → Nat) (cur : List α) :
    bulkCreateIgnore key cur [] = cur := rfl

theorem bulkCreateIgnore_cons {α : Type} (key : α → Nat) (cur : List α) (a : α) (xs : List α) :
    bulkCreateIgnore key cur (a :: xs) =
      bulkCreateIgnore key (if hasKey key cur (key a) then cur else cur ++ [a]) xs := by
  simp [bulkCreateIgnore]

theorem hasKey_iff_mem {α : Type} (key : α → Nat) (l : List α) (k : Nat) :
    hasKey key l k = true ↔ k ∈ l.map key := by
  unfold hasKey
  rw [List.any_eq_true]
  constructor
  · rintro ⟨b, hb, hbe⟩
    rw [beq_iff_eq] at hbe
    exact hbe ▸ List.mem_map_of_mem key hb
  · intro h
    obtain ⟨b, hb, rfl⟩ := List.mem_map.mp h
    exact ⟨b, hb, beq_self_eq_true _⟩

theorem hasKey_append_one {α : Type} (key : α → Nat) (l : List α) (a : α) (k : Nat) :
    hasKey key (l ++ [a]) k = (hasKey key l k || (key a == k)) := by
  simp [hasKey, List.any_append]

theorem hasKey_bulkCreateIgnore_of_hasKey {α : Type} (key : α → Nat) (xs : List α) :
    ∀ (cur : List α) (k : Nat), hasKey key cur k = true →
      hasKey key (bulkCreateIgnore key cur xs) k = true := by
  induction xs with
  | nil => intro cur k h; simpa [bulkCreateIgnore_nil] using h
  | cons a xs ih =>
    intro cur k h
    rw [bulkCreateIgnore_cons]
    cases hc : hasKey key cur (key a) with
    | true => simp only [hc, if_pos]; exact ih cur k h
    | false =>
      simp only [hc, Bool.false_eq_true, if_neg, not_false_iff]
      exact ih (cur ++ [a]) k (by rw [hasKey_append_one, h, Bool.true_or])

theorem hasKey_bulkCreateIgnore_mem {α : Type} (key : α → Nat) (xs : List α) :
    ∀ (cur : List α), ∀ a ∈ xs, hasKey key (bulkCreateIgnore key cur xs) (key a) = true := by
  induction xs with
  | nil => intro cur a ha; cases ha
  | cons b xs ih =>
    intro cur a ha
    rw [bulkCreateIgnore_cons]
    rcases List.mem_cons.mp ha with rfl | ha
    · apply hasKey_bulkCreateIgnore_of_hasKey
      cases hc : hasKey key cur (key a) with
      | true => simp [hc]
      | false => simp [hc, hasKey_append_one]
    · exact ih _ a ha

theorem bulkCreateIgnore_of_all_hasKey {α : Type} (key : α → Nat) (xs : List α) :
    ∀ (cur : List α), (∀ a ∈ xs, hasKey key cur (key a) = true) →
      bulkCreateIgnore key cur xs = cur := by
  induction xs with
  | nil => intro cur _; rfl
  | cons b xs ih =>
    intro cur h
    rw [bulkCreateIgnore_cons]
    have hb := h b (List.mem_cons_self b xs)
    rw [if_pos hb]
    exact ih cur (fun a ha => h a (List.mem_cons_of_mem _ ha))

theorem bulkCreateIgnore_idem {α : Type} (key : α → Nat) (cur xs : List α) :
    bulkCreateIgnore key (bulkCreateIgnore key cur xs) xs = bulkCreateIgnore key cur xs :=
  bulkCreateIgnore_of_all_hasKey key xs _
    (fun a ha => hasKey_bulkCreateIgnore_mem key xs cur a ha)

theorem bulkCreateIgnore_of_nodup {α : Type} (key : α → Nat) (xs : List α) :
    ∀ (cur : List α), ((cur ++ xs).map key).Nodup →
      bulkCreateIgnore key cur xs = cur ++ xs := by
  induction xs with
  | nil => intro cur _; simp [bulkCreateIgnore_nil]
  | cons b xs ih =>
    intro cur h
    have hb : hasKey key cur (key b) = false := by
      rw [List.map_append, List.nodup_append] at h
      obtain ⟨_, _, hdisj⟩ := h
      cases hc : hasKey key cur (key b) with
      | false => rfl
      | true =>
        exact absurd (hdisj ((hasKey_iff_mem key cur (key b)).mp hc)) (by simp)
    rw [bulkCreateIgnore_cons, hb]
    simp only [Bool.false_eq_true, if_neg, not_false_iff]
    have hassoc : cur ++ b :: xs = (cur ++ [b]) ++ xs := by simp
    rw [hassoc] at h
    rw [ih (cur ++ [b]) h, hassoc]

theorem mem_le_foldr_max (l : List Nat) : ∀ x ∈ l, x ≤ l.foldr max 0 := by
  induction l with
  | nil => intro x hx; cases hx
  | cons a l ih =>
    intro x hx
    rcases List.mem_cons.mp hx with rfl | hx
    · exact le_max_left x (l.foldr max 0)
    · exact le_trans (ih x hx) (le_max_right a (l.foldr max 0))

theorem nextId_not_mem (l : List Nat) : nextId l ∉ l := by
  intro h
  have h1 := mem_le_foldr_max l (nextId l) h
  have h2 : nextId l = l.foldr max 0 + 1 := rfl
  omega

theorem getAntologias_nil (s : Store) (h : s.antologias = []) :
    getAntologias s = ApiResult.message 404 "No anthologies found" := by
  simp [getAntologias, h]

theorem getAntologias_ne_nil (s : Store) (h : s.antologias ≠ []) :
    getAntologias s = ApiResult.success 200 (s.antologias.map (enrichAntologia s)) := by
  have hc : ¬(((s.antologias.map (enrichAntologia s)).length == 0) = true) := by
    rw [beq_iff_eq, List.length_map, List.length_eq_zero]
    exact h
  simp only [getAntologias]
  rw [if_neg hc]

/-- C1: for every anthology entry in the store with exactly N matching Like
rows, the GET antologia listing succeeds and reports a likesCount of N for
that entry, and the GET like listing returns with a success status exactly
those N rows — in particular the empty list with a success status, not an
error, when N is zero. -/
theorem likes_count_consistent (s : Store) (a : Antologia) (N : Nat)
    (ha : a ∈ s.antologias) (hN : likesCountOf s a.id = N) :
    (∃ vs, getAntologias s = ApiResult.success 200 vs ∧
      enrichAntologia s a ∈ vs ∧ (enrichAntologia s a).likesCount = N) ∧
    getLikesFor s a.id =
      ApiResult.success 200 (s.likes.filter (fun l => l.idantologia == some a.id)) ∧
    (s.likes.filter (fun l => l.idantologia == some a.id)).length = N ∧
    (N = 0 → getLikesFor s a.id = ApiResult.success 200 []) := by
  have hne : s.antologias ≠ [] := by
    intro h
    rw [h] at ha
    cases ha
  have hfil : (s.likes.filter (fun l => l.idantologia == some a.id)).length = N := by
    rw [← List.countP_eq_length_filter]
    exact hN
  refine ⟨⟨s.antologias.map (enrichAntologia s), getAntologias_ne_nil s hne,
      List.mem_map_of_mem _ ha, hN⟩, rfl, hfil, ?_⟩
  intro h0
  have hnil : s.likes.filter (fun l => l.idantologia == some a.id) = [] :=
    List.length_eq_zero.mp (by rw [hfil, h0])
  simp [getLikesFor, hnil]

/-- C1 witness: concrete evaluation at a store with one entry and two
likes on it. -/
theorem likes_count_consistent_witness :
    (w1Ant ∈ w1Store.antologias ∧ likesCountOf w1Store w1Ant.id = 2) ∧
    ((∃ vs, getAntologias w1Store = ApiResult.success 200 vs ∧
        enrichAntologia w1Store w1Ant ∈ vs ∧ (enrichAntologia w1Store w1Ant).likesCount = 2) ∧
      getLikesFor w1Store w1Ant.id =
        ApiResult.success 200 (w1Store.likes.filter (fun l => l.idantologia == some w1Ant.id)) ∧
      (w1Store.likes.filter (fun l => l.idantologia == some w1Ant.id)).length = 2 ∧
      (2 = 0 → getLikesFor w1Store w1Ant.id = ApiResult.success 200 [])) :=
  ⟨⟨by decide, by decide⟩, likes_count_consistent w1Store w1Ant 2 (by decide) (by decide)⟩

/-- C2: the GET antologia listing on a store with no entries responds 404
with a message body — distinguished both from a success with an empty list
and from a 500 error body — and on any store with at least one entry the
handler never takes the 404 path, whatever the like counts are. -/
theorem empty_listing_distinguished (s : Store) :
    (s.antologias = [] → getAntologias s = ApiResult.message 404 "No anthologies found") ∧
    (s.antologias ≠ [] → ∃ vs, vs ≠ [] ∧ getAntologias s = ApiResult.success 200 vs) := by
  constructor
  · exact getAntologias_nil s
  · intro h
    refine ⟨s.antologias.map (enrichAntologia s), ?_, getAntologias_ne_nil s h⟩
    simpa using h

/-- C2 witness: concrete evaluation at the empty store and at a one-entry
store whose entry has zero likes. -/
theorem empty_listing_distinguished_witness :
    getAntologias emptyStore = ApiResult.message 404 "No anthologies found" ∧
    (∃ vs, vs ≠ [] ∧ getAntologias w2Store = ApiResult.success 200 vs) :=
  ⟨(empty_listing_distinguished emptyStore).1 rfl,
   (empty_listing_distinguished w2Store).2 (by decide)⟩

/-- C3: exporting a snapshot of any store and importing it into an empty
store succeeds and reproduces exactly the rows of all three tables. -/
theorem export_import_roundtrip (s : Store)
    (h1 : (s.autores.map Autor.idautor).Nodup)
    (h2 : (s.antologias.map Antologia.id).Nodup)
    (h3 : (s.likes.map Like.id).Nodup) :
    importSnapshot (exportDatabase s) emptyStore = (s, none) := by
  have e1 : bulkCreateIgnore Autor.idautor [] s.autores = s.autores := by
    simpa using bulkCreateIgnore_of_nodup Autor.idautor s.autores [] (by simpa using h1)
  have e2 : bulkCreateIgnore Antologia.id [] s.antologias = s.antologias := by
    simpa using bulkCreateIgnore_of_nodup Antologia.id s.antologias [] (by simpa using h2)
  have e3 : bulkCreateIgnore Like.id [] s.likes = s.likes := by
    simpa using bulkCreateIgnore_of_nodup Like.id s.likes [] (by simpa using h3)
  simp [importSnapshot, exportDatabase, applyBatch, emptyStore, e1, e2, e3]

/-- C3 witness: concrete roundtrip at a store with two authors, one entry
and two likes, all with distinct primary keys. -/
theorem export_import_roundtrip_witness :
    ((w3Store.autores.map Autor.idautor).Nodup ∧
     (w3Store.antologias.map Antologia.id).Nodup ∧
     (w3Store.likes.map Like.id).Nodup) ∧
    importSnapshot (exportDatabase w3Store) emptyStore = (w3Store, none) :=
  ⟨⟨by decide, by decide, by decide⟩,
   export_import_roundtrip w3Store (by decide) (by decide) (by decide)⟩

/-- C4: importing the same snapshot twice in succession is idempotent — the
second import changes nothing, every row with an already present primary
key being skipped, so each table row count after the second import equals
the count after the first. -/
theorem import_twice_idempotent (snap : Snapshot) (s : Store) :
    importSnapshot snap (importSnapshot snap s).fst = importSnapshot snap s ∧
    (importSnapshot snap (importSnapshot snap s).fst).fst.autores.length =
      (importSnapshot snap s).fst.autores.length ∧
    (importSnapshot snap (importSnapshot snap s).fst).fst.antologias.length =
      (importSnapshot snap s).fst.antologias.length ∧
    (importSnapshot snap (importSnapshot snap s).fst).fst.likes.length =
      (importSnapshot snap s).fst.likes.length := by
  have h : importSnapshot snap (importSnapshot snap s).fst = importSnapshot snap s := by
    obtain ⟨pa, pn, pl⟩ := snap
    cases pa <;> cases pn <;> cases pl <;>
      simp [importSnapshot, applyBatch, bulkCreateIgnore_idem]
  exact ⟨h, by rw [h], by rw [h], by rw [h]⟩

/-- C5 counterexample: with a failing autores batch, the import handler
leaves the antologias table empty and reports the error — the valid
antologias batch was never attempted — whereas the independent-batches
reading would have inserted the row. -/
theorem import_batches_not_independent :
    (importSnapshot c5Snap emptyStore).fst.antologias = [] ∧
    (importSnapshot c5Snap emptyStore).snd = some "bulkCreate failed" ∧
    (importSnapshotSpec c5Snap emptyStore).antologias = [c5Ant] :=
  ⟨rfl, rfl, rfl⟩

/-- C5 amended: the three batches run inside a single try catch, so the
first failing batch aborts the import — earlier batches keep their effect,
later batches are not attempted, and the handler reports the error — while
absent top-level keys are still skipped without error. -/
theorem import_sequential_abort (s : Store) (pn : BatchPayload Antologia)
    (pl : BatchPayload Like) (xs : List Autor) :
    importSnapshot ⟨.absent, .absent, .absent⟩ s = (s, none) ∧
    importSnapshot ⟨.malformed, pn, pl⟩ s = (s, some "bulkCreate failed") ∧
    importSnapshot ⟨.rows xs, .malformed, pl⟩ s =
      ({ s with autores := bulkCreateIgnore Autor.idautor s.autores xs },
       some "bulkCreate failed") :=
  ⟨rfl, rfl, rfl⟩

/-- C6: resetting any store deletes everything and reseeds, after which the
store holds exactly the seed Autor and the seed Antologia, the author
listing returns exactly the seed Autor, and the entry listing returns
exactly the seed entry with a like count of zero. -/
theorem reset_reseeds (s : Store) :
    resetDatabase s = ⟨[seedAutor], [seedAntologia], []⟩ ∧
    getAutores (resetDatabase s) = ApiResult.success 200 [seedAutor] ∧
    getAntologias (resetDatabase s) = ApiResult.success 200
      [⟨seedAntologia,
        some ⟨seedAutor.nombre, seedAutor.biografia, seedAutor.urlfoto⟩, 0⟩] := by
  have hr : resetDatabase s = (⟨[seedAutor], [seedAntologia], []⟩ : Store) := rfl
  refine ⟨hr, rfl, ?_⟩
  rw [hr]
  decide

/-- C7 counterexample: the force variant of initializeDatabase drops every
table before seeding, so on a store that already holds one Autor and one
Antologia it replaces the contents with the seed rows instead of leaving
them unchanged. -/
theorem initialize_force_not_idempotent :
    (1 ≤ c7Store.autores.length ∧ 1 ≤ c7Store.antologias.length) ∧
    (initializeDatabaseForce c7Store).autores ≠ c7Store.autores ∧
    initializeDatabaseForce c7Store ≠ c7Store := by
  refine ⟨⟨by decide, by decide⟩, by decide, by decide⟩

/-- C7 amended: the alter variant of initializeDatabase is idempotent — on
any store already holding at least one Autor and at least one Antologia it
performs no inserts and leaves the store unchanged — while the force
variant drops all rows first and reseeds from empty. -/
theorem initialize_alter_idempotent (s : Store)
    (ha : s.autores ≠ []) (hn : s.antologias ≠ []) :
    initializeDatabaseAlter s = s := by
  have h1 : (s.autores.length == 0) = false := by
    rw [beq_eq_false_iff_ne]
    intro h
    exact ha (List.length_eq_zero.mp h)
  have h2 : (s.antologias.length == 0) = false := by
    rw [beq_eq_false_iff_ne]
    intro h
    exact hn (List.length_eq_zero.mp h)
  simp [initializeDatabaseAlter, seedStep, h1, h2]

/-- C7 amended witness: concrete evaluation of the alter variant at a store
holding one custom Autor and one custom Antologia. -/
theorem initialize_alter_idempotent_witness :
    (w7Store.autores ≠ [] ∧ w7Store.antologias ≠ []) ∧
    initializeDatabaseAlter w7Store = w7Store :=
  ⟨⟨by decide, by decide⟩, initialize_alter_idempotent w7Store (by decide) (by decide)⟩

/-- C8: updating an Antologia, deleting an Antologia, and updating an Autor
at an id matching no row each yield the caught not-found error — a 500
response carrying an error body — never a silent success. -/
theorem missing_id_reports_error (s : Store) (i : Nat)
    (p : AntologiaPatch) (q : AutorPatch)
    (hn : ∀ a ∈ s.antologias, a.id ≠ i) (hu : ∀ a ∈ s.autores, a.idautor ≠ i) :
    (updateAntologia s i p).fst = ApiResult.error "Anthology not found" ∧
    (deleteAntologia s i).fst = ApiResult.error "Anthology not found" ∧
    (updateAutor s i q).fst = ApiResult.error "Author not found" := by
  have h1 : s.antologias.countP (fun a => a.id == i) = 0 := by
    rw [List.countP_eq_zero]
    intro a ha
    simpa using hn a ha
  have h2 : s.autores.countP (fun a => a.idautor == i) = 0 := by
    rw [List.countP_eq_zero]
    intro a ha
    simpa using hu a ha
  refine ⟨?_, ?_, ?_⟩ <;> simp [updateAntologia, deleteAntologia, updateAutor, h1, h2]

/-- C8 witness: concrete evaluation at a one-row store and the absent id
ninety nine. -/
theorem missing_id_reports_error_witness :
    ((∀ a ∈ w8Store.antologias, a.id ≠ 99) ∧ (∀ a ∈ w8Store.autores, a.idautor ≠ 99)) ∧
    ((updateAntologia w8Store 99 emptyAntologiaPatch).fst =
        ApiResult.error "Anthology not found" ∧
      (deleteAntologia w8Store 99).fst = ApiResult.error "Anthology not found" ∧
      (updateAutor w8Store 99 emptyAutorPatch).fst = ApiResult.error "Author not found") :=
  ⟨⟨by decide, by decide⟩,
   missing_id_reports_error w8Store 99 emptyAntologiaPatch emptyAutorPatch
     (by decide) (by decide)⟩

/-- C9 counterexample: a create request whose nombre is the empty string is
accepted — the handler responds 201 with a created Autor — because the
column constraint rejects only null, contradicting the claim that an empty
display name fails validation. -/
theorem create_autor_empty_name_succeeds :
    (postAutores emptyStore ⟨some "", none, none⟩).fst =
      ApiResult.success 201 ⟨1, some "", none, none⟩ :=
  rfl

/-- C9 amended: a create request with a missing (null) nombre fails with
the validation error reported as an error response, and a request with any
present string nombre — the empty string included — succeeds with a 201
and a store-assigned id distinct from every Autor id in the store. -/
theorem create_autor_amended (s : Store) (n : String) (b u b2 u2 : Option String) :
    (postAutores s ⟨none, b2, u2⟩).fst =
      ApiResult.error "notNull Violation: Autor.nombre cannot be null" ∧
    ∃ a s2, postAutores s ⟨some n, b, u⟩ = (ApiResult.success 201 a, s2) ∧
      a.nombre = some n ∧ a.idautor ∉ s.autores.map Autor.idautor := by
  refine ⟨rfl, ?_⟩
  refine ⟨_, _, rfl, rfl, ?_⟩
  exact nextId_not_mem _

/-- C10: deleting an Antologia whose id is present succeeds and removes
only the matching Antologia rows: every Like row — those pointing at the
deleted id included — and every Autor row is still present afterwards; the
handler performs no cascade on Likes. -/
theorem delete_no_cascade (s : Store) (i : Nat)
    (h : ∃ a ∈ s.antologias, a.id = i) :
    (deleteAntologia s i).fst = ApiResult.message 200 "Anthology deleted successfully" ∧
    (deleteAntologia s i).snd.likes = s.likes ∧
    (deleteAntologia s i).snd.autores = s.autores ∧
    (deleteAntologia s i).snd.antologias = s.antologias.filter (fun a => !(a.id == i)) := by
  have hpos : 0 < s.antologias.countP (fun a => a.id == i) := by
    rw [List.countP_pos_iff]
    obtain ⟨a, ha, hai⟩ := h
    exact ⟨a, ha, by simpa using hai⟩
  simp [deleteAntologia, hpos]

/-- C10 witness: concrete evaluation at a store with two entries, one like
on the deleted entry, and one author. -/
theorem delete_no_cascade_witness :
    (∃ a ∈ w10Store.antologias, a.id = 1) ∧
    ((deleteAntologia w10Store 1).fst =
        ApiResult.message 200 "Anthology deleted successfully" ∧
      (deleteAntologia w10Store 1).snd.likes = w10Store.likes ∧
      (deleteAntologia w10Store 1).snd.autores = w10Store.autores ∧
      (deleteAntologia w10Store 1).snd.antologias =
        w10Store.antologias.filter (fun a => !(a.id == 1))) :=
  ⟨by decide, delete_no_cascade w10Store 1 (by decide)⟩

end DbAntologias
